import Mathlib

/-!
Shallow embedding of `PoliVec_Projector.py` (Political Vector Projector).

Modelling conventions:
* 32-bit floating point numbers are modelled by `ℝ`; vector components
  arrive already tokenised and converted, so a parsed line of a `.vec`
  file is a pair `(label, components) : String × List ℝ`.
* A CSV row of the DW-NOMINATE file is modelled by its two relevant
  fields `(bioname, dim1) : String × Option ℝ`, where `none` models an
  empty `dim1` field (Python's falsy empty string) and `some r` a
  non-empty field whose float value is `r`.
* A value that may be IEEE NaN (as produced by numpy's non-raising
  `0.0/0.0`) is modelled by `FVal`; a propagating Python exception
  (`ValueError`, `KeyError`) is modelled by `Except PyErr`.
* Python dicts are modelled by insertion-ordered association lists with
  overwrite-on-assignment (`dict_insert`) and front-to-back lookup
  (`dict_get`), which matches dict semantics because `dict_insert`
  keeps keys unique.
-/

namespace PoliVec

/-- Python exceptions that the modelled fragments can raise. -/
inductive PyErr where
  | keyError (k : String)
  | valueError
  deriving DecidableEq

/-- NaN-aware float value: numpy produces NaN (not an exception) on `0.0/0.0`. -/
inductive FVal where
  | nan
  | val (r : ℝ)

/-- IEEE-style addition on `FVal`: NaN absorbs. -/
def FVal.add : FVal → FVal → FVal
  | .val x, .val y => .val (x + y)
  | _, _ => .nan

/-- IEEE-style division on `FVal`: NaN absorbs, and `0/0`-style division by zero is NaN. -/
noncomputable def FVal.div : FVal → FVal → FVal
  | .val x, .val y => if y = 0 then .nan else .val (x / y)
  | _, _ => .nan

/-- `parse_vector` (source lines 27–30): `return line[1:], line[0]` on the
whitespace-split line, i.e. (components, label). Tokenisation and float
conversion are abstracted: a line is `(label, components)`. -/
def parse_vector (line : String × List ℝ) : List ℝ × String :=
  (line.2, line.1)

/-- A `.vec` file with a declared-shape header line followed by data lines. -/
structure VecFile where
  header : ℕ × ℕ
  body : List (String × List ℝ)

/-- `validate_shape` (source lines 32–41): asserts the actual tensor shape
equals the declared `(vocab_size, embed_dim)`; the `AssertionError` is caught
and turned into a printed warning. The returned `Bool` records whether the
warning was printed; the function never fails and never alters any data. -/
def validate_shape (shape : ℕ × ℕ) (vocab_size embed_dim : ℕ) : Bool :=
  decide (shape ≠ (vocab_size, embed_dim))

/-- The shape of `np.array(vectors, np.float32)` for a (rectangular,
nonempty) list of parsed rows: (row count, length of a row). -/
def tensor_shape (vectors : List (List ℝ)) : ℕ × ℕ :=
  (vectors.length, (vectors.headD []).length)

/-- `read_vec_file` (source lines 43–55): reads the header, parses every
remaining line with `parse_vector`, builds the vector matrix and label list,
and calls `validate_shape` on the result. The `Bool` component records
whether the shape warning fired. -/
def read_vec_file (file : VecFile) : (List (List ℝ) × List String) × Bool :=
  let vectors := file.body.map (fun l => (parse_vector l).1)
  let labels := file.body.map (fun l => (parse_vector l).2)
  ((vectors, labels),
   validate_shape (tensor_shape vectors) file.header.1 file.header.2)

/-- `read_vec_file_with_axes` (source lines 57–82): no header line; the
first 4 lines are the axis anchors, the rest are the corpus vectors.
Returns (vectors, axis_vectors, labels). -/
def read_vec_file_with_axes (lines : List (String × List ℝ)) :
    List (List ℝ) × List (List ℝ) × List String :=
  ((lines.drop 4).map (fun l => (parse_vector l).1),
   (lines.take 4).map (fun l => (parse_vector l).1),
   (lines.drop 4).map (fun l => (parse_vector l).2))

/-- Python `re.sub(',.*', '', s).lower()` (source line 118): drop everything
from the first comma on, then lowercase. -/
def normalize_name (s : String) : String :=
  String.mk ((s.data.takeWhile (fun c => c ≠ ',')).map Char.toLower)

/-- `read_dwnominate_csv` (source lines 96–119): per row, a non-empty
`dim1` contributes (score, bioname); an empty `dim1` contributes score `0`,
name `bioname ++ "(missing score)"`, and records the raw bioname in the
missing list. After the loop every name is normalized with
`re.sub(',.*','',name).lower()`. Returns (ideology_scores, names, missing). -/
def read_dwnominate_csv (rows : List (String × Option ℝ)) :
    List ℝ × List String × List String :=
  let step := fun (acc : List ℝ × List String × List String)
      (row : String × Option ℝ) =>
    match row.2 with
    | some score => (acc.1 ++ [score], acc.2.1 ++ [row.1], acc.2.2)
    | none => (acc.1 ++ [0], acc.2.1 ++ [row.1 ++ "(missing score)"],
               acc.2.2 ++ [row.1])
  let out := rows.foldl step ([], [], [])
  (out.1, (out.2.1).map normalize_name, out.2.2)

/-- Python dict assignment `d[k] = v`: overwrite in place if the key is
present (keeping its position), otherwise append at the end. -/
def dict_insert (d : List (String × List ℝ)) (k : String) (v : List ℝ) :
    List (String × List ℝ) :=
  if d.any (fun p => p.1 = k) then
    d.map (fun p => if p.1 = k then (k, v) else p)
  else
    d ++ [(k, v)]

/-- Python dict lookup `d[k]` / `d.get(k)`: the stored value for `k`
(keys are unique, so the first occurrence is the stored one). -/
def dict_get (d : List (String × List ℝ)) (k : String) : Option (List ℝ) :=
  (d.find? (fun p => p.1 = k)).map Prod.snd

/-- The dict-building loop of `read_vec_file_as_dict` (source lines 86–91):
`vec_dict[label] = np.array(vector, np.float32)` for each parsed line. -/
def build_vec_dict (body : List (String × List ℝ)) : List (String × List ℝ) :=
  body.foldl
    (fun d line =>
      let parsed := parse_vector line
      dict_insert d parsed.2 parsed.1)
    []

/-- `read_vec_file_as_dict` (source lines 84–94): builds the dict, then
validates the shape `(len(vec_dict), len(vec_dict['coffee']))` against the
header — raising an uncaught `KeyError` when the label `'coffee'` is not in
the vocabulary. The `Bool` records whether the shape warning fired. -/
def read_vec_file_as_dict (file : VecFile) :
    Except PyErr (List (String × List ℝ) × Bool) :=
  match dict_get (build_vec_dict file.body) "coffee" with
  | none => .error (.keyError "coffee")
  | some coffee_vec =>
      .ok (build_vec_dict file.body,
        validate_shape ((build_vec_dict file.body).length, coffee_vec.length)
          file.header.1 file.header.2)

/-- Dot product of two vectors, as in `np.dot` on equal-length 1-d arrays. -/
def dot (v w : List ℝ) : ℝ :=
  ((v.zip w).map (fun p => p.1 * p.2)).sum

/-- `np.linalg.norm`: the Euclidean norm. -/
noncomputable def linalg_norm (v : List ℝ) : ℝ :=
  Real.sqrt ((v.map (fun x => x ^ 2)).sum)

/-- Componentwise vector subtraction (numpy array subtraction). -/
def vsub (v w : List ℝ) : List ℝ :=
  (v.zip w).map (fun p => p.1 - p.2)

/-- Componentwise division of a vector by a scalar (numpy broadcasting).
Real division by a zero norm yields the zero vector here, modelling the
non-raising degenerate behaviour of numpy (which yields a NaN vector with a
runtime warning, not an exception). -/
noncomputable def vdiv (v : List ℝ) (c : ℝ) : List ℝ :=
  v.map (fun x => x / c)

/-- Axis construction (source lines 126–127 and 128–129): difference of the
positive and negative anchors, divided by its Euclidean norm. -/
noncomputable def build_axis (positive negative : List ℝ) : List ℝ :=
  let a := vsub positive negative
  vdiv a (linalg_norm a)

/-- `scalar_projection` (source lines 121–132): build the x and y unit axes
from the 4 anchor vectors `[positive_x, negative_x, positive_y, negative_y]`
and return each input vector's dot product with each axis. -/
noncomputable def scalar_projection (vectors axis_vectors : List (List ℝ)) :
    List ℝ × List ℝ :=
  let x_axis := build_axis (axis_vectors.getD 0 []) (axis_vectors.getD 1 [])
  let y_axis := build_axis (axis_vectors.getD 2 []) (axis_vectors.getD 3 [])
  (vectors.map (fun v => dot v x_axis), vectors.map (fun v => dot v y_axis))

/-- numpy `mean` over ℝ (empty input is a degenerate case never reached in
the claims). -/
noncomputable def mean (xs : List ℝ) : ℝ :=
  xs.sum / xs.length

/-- The centred samples `x - mean(x)` used by `scipy.stats.pearsonr`. -/
noncomputable def centered (xs : List ℝ) : List ℝ :=
  xs.map (fun x => x - mean xs)

/-- Sum of squared deviations, scipy's `ss(xm)`. -/
noncomputable def ss (xs : List ℝ) : ℝ :=
  ((centered xs).map (fun x => x ^ 2)).sum

/-- Numerator of Pearson's r: `np.add.reduce(xm * ym)`. -/
noncomputable def pearson_num (xs ys : List ℝ) : ℝ :=
  (((centered xs).zip (centered ys)).map (fun p => p.1 * p.2)).sum

/-- Denominator of Pearson's r: `np.sqrt(ss(xm) * ss(ym))`. -/
noncomputable def pearson_den (xs ys : List ℝ) : ℝ :=
  Real.sqrt (ss xs * ss ys)

/-- The float Pearson's r computes: when the denominator is 0 (fewer than 2
samples, or zero variance) the numerator is 0 as well and numpy's `0.0/0.0`
yields NaN with a runtime warning, not an exception or a distinct
error/None result. -/
noncomputable def pearson_val (xs ys : List ℝ) : FVal :=
  if pearson_den xs ys = 0 then .nan
  else .val (pearson_num xs ys / pearson_den xs ys)

/-- `scipy.stats.pearsonr` (first component of its result pair): on samples
of different lengths the element-wise product `xm * ym` fails to broadcast
and raises `ValueError` — except when one operand has length 1, where
broadcasting succeeds and the zero denominator again gives NaN. -/
noncomputable def pearsonr (xs ys : List ℝ) : Except PyErr FVal :=
  if xs.length = ys.length then .ok (pearson_val xs ys)
  else if xs.length = 1 ∨ ys.length = 1 then .ok .nan
  else .error .valueError

/-- Ranks with ties averaged, as used by the Spearman correlation. -/
noncomputable def rankdata (xs : List ℝ) : List ℝ :=
  xs.map (fun x =>
    ((xs.filter (fun y => y < x)).length : ℝ) +
      (1 + ((xs.filter (fun y => y = x)).length : ℝ)) / 2)

/-- `scipy.stats.mstats.spearmanr` (first component): its `_chk_size` raises
`ValueError` on samples of different lengths; then `df = n - 2` and
`if df < 0: raise ValueError("The input must have at least 3 entries!")`
rejects fewer than 2 samples (the message says 3 but the check is `n < 2`);
otherwise it computes Pearson's r on the ranked samples. -/
noncomputable def spearmanr (xs ys : List ℝ) : Except PyErr FVal :=
  if xs.length ≠ ys.length then .error .valueError
  else if xs.length < 2 then .error .valueError
  else .ok (pearson_val (rankdata xs) (rankdata ys))

/-- `evaluate_ideology_projection` (source lines 157–173): reads the
DW-NOMINATE csv for the session and the with-axes vector file, projects,
and computes the two correlations of the x-projections against the scores.
Only the plotting call is wrapped in try/except (and is out of scope here);
`stats.pearsonr` runs unguarded, so its `ValueError` on a length mismatch
propagates out of the function. -/
noncomputable def evaluate_ideology_projection
    (vec_lines : List (String × List ℝ))
    (csv_rows : List (String × Option ℝ)) : Except PyErr (FVal × FVal) :=
  let ideology := (read_dwnominate_csv csv_rows).1
  let parsed := read_vec_file_with_axes vec_lines
  let x_proj := (scalar_projection parsed.1 parsed.2.1).1
  do
    let pearson ← pearsonr x_proj ideology
    let spearman ← spearmanr x_proj ideology
    pure (pearson, spearman)

/-- `compare_among_years` (source lines 175–198): runs
`evaluate_ideology_projection` for every session in `range(start, stop)`,
accumulating `sum_pearson` and `sum_spearman`, and finally reports each sum
divided by `end - start` — the size of the requested range. A per-session
exception propagates and aborts the whole loop; a per-session NaN flows
into the running sums. The session's files are modelled as functions from
the session number to the parsed file contents. -/
noncomputable def compare_among_years
    (vec_files : ℕ → List (String × List ℝ))
    (csv_files : ℕ → List (String × Option ℝ))
    (start stop : ℕ) : Except PyErr (FVal × FVal) := do
  let sums ← (List.range' start (stop - start)).foldlM
    (fun (acc : FVal × FVal) cgrs_sess => do
      let r ← evaluate_ideology_projection
        (vec_files cgrs_sess) (csv_files cgrs_sess)
      pure (acc.1.add r.1, acc.2.add r.2))
    (FVal.val 0, FVal.val 0)
  pure (sums.1.div (FVal.val ((stop - start : ℕ) : ℝ)),
        sums.2.div (FVal.val ((stop - start : ℕ) : ℝ)))

/-- The per-senator loop of `dict_compare_among_years` (source lines
219–223): for each `(senator, score)` in order, keep the triple
(label, vector, score) exactly when `vec_dict.get(senator)` is not None;
absent senators contribute nothing. -/
def in_vocab_join (vec_dict : List (String × List ℝ)) :
    List (String × ℝ) → List String × List (List ℝ) × List ℝ
  | [] => ([], [], [])
  | (senator, score) :: rest =>
    match dict_get vec_dict senator with
    | some v =>
        let r := in_vocab_join vec_dict rest
        (senator :: r.1, v :: r.2.1, score :: r.2.2)
    | none => in_vocab_join vec_dict rest

/-- The per-cohort missing list (source line 224):
`[w for w in senators if w not in in_vocab_labels]`. -/
def missing_senators (vec_dict : List (String × List ℝ))
    (senators : List String) (ideology : List ℝ) : List String :=
  senators.filter
    (fun w => !((in_vocab_join vec_dict (senators.zip ideology)).1.contains w))

/-- One session of `dict_compare_among_years` (source lines 213–233): read
the csv, intersect senators against the dict, project the retained vectors
and correlate against the retained scores. -/
noncomputable def dict_session_stats (vec_dict : List (String × List ℝ))
    (axis_vectors : List (List ℝ))
    (csv_rows : List (String × Option ℝ)) : Except PyErr (FVal × FVal) :=
  let csv := read_dwnominate_csv csv_rows
  let joined := in_vocab_join vec_dict (csv.2.1.zip csv.1)
  let x_proj := (scalar_projection joined.2.1 axis_vectors).1
  do
    let pearson ← pearsonr x_proj joined.2.2
    let spearman ← spearmanr x_proj joined.2.2
    pure (pearson, spearman)

/-- `dict_compare_among_years` (source lines 200–240): look up the four
fixed axis words (an absent word raises `KeyError`), then run the sessions
exactly as `compare_among_years` does, again dividing the running sums by
`end - start`. -/
noncomputable def dict_compare_among_years
    (vec_dict : List (String × List ℝ))
    (csv_files : ℕ → List (String × Option ℝ))
    (start stop : ℕ) : Except PyErr (FVal × FVal) := do
  let axis_vectors ← (["conservative", "liberal", "good", "bad"]).mapM
    (fun a =>
      match dict_get vec_dict a with
      | some v => Except.ok v
      | none => Except.error (PyErr.keyError a))
  let sums ← (List.range' start (stop - start)).foldlM
    (fun (acc : FVal × FVal) cgrs_sess => do
      let r := dict_session_stats vec_dict axis_vectors (csv_files cgrs_sess)
      let r ← r
      pure (acc.1.add r.1, acc.2.add r.2))
    (FVal.val 0, FVal.val 0)
  pure (sums.1.div (FVal.val ((stop - start : ℕ) : ℝ)),
        sums.2.div (FVal.val ((stop - start : ℕ) : ℝ)))

/-- Concrete demonstration data: the 4 axis-anchor lines in the fixed order
expected by `read_vec_file_with_axes`. -/
def demo_axes : List (String × List ℝ) :=
  [("conservative", [1, 0]), ("liberal", [-1, 0]),
   ("good", [0, 1]), ("bad", [0, -1])]

/-- A with-axes vector file carrying two senator vectors. -/
def demo_vec2 : List (String × List ℝ) :=
  demo_axes ++ [("alice", [1, 0]), ("bob", [0, 1])]

/-- A with-axes vector file carrying a single senator vector. -/
def demo_vec1 : List (String × List ℝ) :=
  demo_axes ++ [("alice", [1, 0])]

/-- A reference csv with two scored rows. -/
def demo_csv2 : List (String × Option ℝ) :=
  [("ALICE, a", some 1), ("BOB, b", some 0)]

/-- A reference csv with a single scored row: its cohort has 1 paired
sample, so its correlation is undefined. -/
def demo_csv1 : List (String × Option ℝ) :=
  [("ALICE, a", some 1)]

/-- A reference csv with three scored rows (length mismatch against
`demo_vec2`). -/
def demo_csv3 : List (String × Option ℝ) :=
  [("ALICE, a", some 1), ("BOB, b", some 0), ("CAROL, c", some 1)]

end PoliVec

namespace PoliVec

/-- C4: `read_vec_file` emits a warning on a header/content mismatch but does
not fail: it always returns exactly the vectors and labels parsed from the
body, which do not depend on the declared header, and the warning flag is set
precisely when the actual shape disagrees with the declared one. -/
theorem read_vec_file_header_is_advisory :
    (∀ file : VecFile,
      (read_vec_file file).1 =
        (file.body.map (fun l => (parse_vector l).1),
         file.body.map (fun l => (parse_vector l).2)) ∧
      ((read_vec_file file).2 = true ↔
        tensor_shape (file.body.map (fun l => (parse_vector l).1)) ≠ file.header)) ∧
    (∀ (h h' : ℕ × ℕ) (b : List (String × List ℝ)),
      (read_vec_file ⟨h, b⟩).1 = (read_vec_file ⟨h', b⟩).1) := by
  constructor
  · intro file
    refine ⟨rfl, ?_⟩
    simp [read_vec_file, validate_shape, Prod.ext_iff]
    tauto
  · intro h h' b
    rfl

lemma dict_get_map_overwrite_ne (d : List (String × List ℝ)) (k k' : String)
    (v : List ℝ) (hk : k' ≠ k) :
    dict_get (d.map (fun p => if p.1 = k then (k, v) else p)) k' =
      dict_get d k' := by
  induction d with
  | nil => rfl
  | cons p rest ih =>
    by_cases hp : p.1 = k
    · simp only [List.map_cons, if_pos hp, dict_get, List.find?_cons]
      have h1 : (k = k') = False := by simp [Ne.symm hk]
      have h2 : (p.1 = k') = False := by simp [hp, Ne.symm hk]
      simp only [h1, h2, decide_False]
      exact ih
    · simp only [List.map_cons, if_neg hp, dict_get, List.find?_cons]
      by_cases hq : p.1 = k'
      · simp [hq]
      · simp only [hq, decide_False]
        exact ih

lemma dict_get_map_overwrite_eq (d : List (String × List ℝ)) (k : String)
    (v : List ℝ) (hmem : d.any (fun p => p.1 = k) = true) :
    dict_get (d.map (fun p => if p.1 = k then (k, v) else p)) k = some v := by
  induction d with
  | nil => simp at hmem
  | cons p rest ih =>
    by_cases hp : p.1 = k
    · simp [List.map_cons, if_pos hp, dict_get, List.find?_cons]
    · simp only [List.map_cons, if_neg hp, dict_get, List.find?_cons]
      simp only [hp, decide_False]
      have hmem' : rest.any (fun p => p.1 = k) = true := by
        simp only [List.any_cons, hp, decide_False, Bool.false_or] at hmem
        exact hmem
      exact ih hmem'

lemma dict_get_insert (d : List (String × List ℝ)) (k k' : String)
    (v : List ℝ) :
    dict_get (dict_insert d k v) k' =
      if k' = k then some v else dict_get d k' := by
  unfold dict_insert
  by_cases hmem : d.any (fun p => p.1 = k) = true
  · rw [if_pos hmem]
    by_cases hk : k' = k
    · subst hk
      rw [if_pos rfl]
      exact dict_get_map_overwrite_eq d k' v hmem
    · rw [if_neg hk]
      exact dict_get_map_overwrite_ne d k k' v hk
  · rw [if_neg hmem]
    rw [dict_get, dict_get, List.find?_append]
    by_cases hk : k' = k
    · subst hk
      have hnone : d.find? (fun p => (p.1 = k')) = none := by
        rw [List.find?_eq_none]
        intro x hx
        simp only [decide_eq_true_eq]
        intro hx1
        exact hmem (List.any_eq_true.mpr ⟨x, hx, by simp [hx1]⟩)
      rw [if_pos rfl, hnone]
      simp [List.find?_cons]
    · rw [if_neg hk]
      have hone : List.find? (fun p : String × List ℝ => p.1 = k') [(k, v)]
          = none := by
        simp [List.find?_cons, Ne.symm hk]
      rw [hone]
      simp

lemma dict_get_build_aux (xs : List (String × List ℝ))
    (d : List (String × List ℝ)) (k : String) :
    dict_get
        (xs.foldl
          (fun d line =>
            let parsed := parse_vector line
            dict_insert d parsed.2 parsed.1) d) k =
      ((xs.reverse.find? (fun l => l.1 = k)).map Prod.snd).or (dict_get d k) := by
  induction xs generalizing d with
  | nil => simp
  | cons x xs ih =>
    rw [List.foldl_cons, ih, List.reverse_cons, List.find?_append]
    rw [dict_get_insert]
    simp only [parse_vector]
    by_cases hx : x.1 = k
    · have hfind : List.find? (fun l : String × List ℝ => l.1 = k) [x]
          = some x := by
        simp [List.find?_cons, hx]
      rw [hfind, if_pos hx.symm]
      cases xs.reverse.find? (fun l => l.1 = k) <;> simp [Option.or]
    · have hfind : List.find? (fun l : String × List ℝ => l.1 = k) [x]
          = none := by
        simp [List.find?_cons, hx]
      rw [hfind, if_neg (fun h => hx h.symm)]
      cases xs.reverse.find? (fun l => l.1 = k) <;> simp [Option.or]

lemma dict_get_build_vec_dict (body : List (String × List ℝ)) (k : String) :
    dict_get (build_vec_dict body) k =
      (body.reverse.find? (fun l => l.1 = k)).map Prod.snd := by
  have h := dict_get_build_aux body [] k
  simpa [build_vec_dict, dict_get] using h

lemma vsub_self (v : List ℝ) : vsub v v = List.replicate v.length 0 := by
  induction v with
  | nil => rfl
  | cons x xs ih => simpa [vsub, List.replicate_succ] using ih

lemma linalg_norm_replicate_zero (n : ℕ) :
    linalg_norm (List.replicate n 0) = 0 := by
  simp [linalg_norm, List.sum_replicate]

/-- C7: constructing an axis from identical positive and negative anchors is
a defined, deterministic degenerate result, never an unhandled crash: the
difference is the zero vector, its norm is 0, and the division by that zero
norm yields the zero vector of the same length (numpy: a NaN vector plus a
runtime warning — likewise a defined value, not an exception). -/
theorem build_axis_degenerate (v : List ℝ) :
    build_axis v v = List.replicate v.length 0 := by
  simp [build_axis, vsub_self, linalg_norm_replicate_zero, vdiv,
    List.map_replicate]

/-- C5: `scalar_projection` builds `x_axis` from `anchors[0] - anchors[1]`
normalised by its Euclidean norm (`y_axis` analogously from
`anchors[2] - anchors[3]`) and returns each vector's dot product with each
axis; on the concrete end-to-end data (alice `[1,0]`, bob `[0,1]`, carol
`[-1,0]` with unit anchor pairs) the x-projections are `[1, 0, -1]`. -/
theorem scalar_projection_axes_and_example :
    (∀ vectors axis_vectors : List (List ℝ),
      scalar_projection vectors axis_vectors =
        (vectors.map (fun v =>
           dot v (build_axis (axis_vectors.getD 0 []) (axis_vectors.getD 1 []))),
         vectors.map (fun v =>
           dot v (build_axis (axis_vectors.getD 2 []) (axis_vectors.getD 3 []))))) ∧
    (scalar_projection [[1, 0], [0, 1], [-1, 0]]
        [[1, 0], [-1, 0], [0, 1], [0, -1]]).1 = [1, 0, -1] := by
  constructor
  · intro vectors axis_vectors
    rfl
  · have h1 : vsub [(1 : ℝ), 0] [(-1 : ℝ), 0] = [2, 0] := by
      norm_num [vsub]
    have h2 : linalg_norm [(2 : ℝ), 0] = 2 := by
      have hs : (([(2 : ℝ), 0].map (fun x => x ^ 2)).sum) = 2 ^ 2 := by
        norm_num
      rw [linalg_norm, hs, Real.sqrt_sq (by norm_num : (0 : ℝ) ≤ 2)]
    have hx : build_axis [(1 : ℝ), 0] [(-1 : ℝ), 0] = [1, 0] := by
      simp only [build_axis, h1, h2, vdiv, List.map_cons, List.map_nil]
      norm_num
    simp [scalar_projection, hx, dot]

/-- C1 (code behaviour at the failing input): an empty-score row for
`"SMITH, John"` yields score `0`, but the normalization step strips the
appended `"(missing score)"` tag together with everything after the first
comma, so the returned name is `"smith"`, not `"smith(missing score)"`. -/
theorem read_dwnominate_csv_missing_tag_stripped :
    read_dwnominate_csv [("SMITH, John", none)] =
      ([0], ["smith"], ["SMITH, John"]) := by
  rfl

/-- C9: whenever `read_vec_file_as_dict` returns a mapping, looking up any
label in it yields the vector of the last body line carrying that label
(last-write-wins); earlier duplicates are silently overwritten. -/
theorem read_vec_file_as_dict_last_write_wins (file : VecFile)
    (d : List (String × List ℝ)) (w : Bool)
    (h : read_vec_file_as_dict file = .ok (d, w)) (label : String) :
    dict_get d label =
      (file.body.reverse.find? (fun l => l.1 = label)).map Prod.snd := by
  have hd : d = build_vec_dict file.body := by
    unfold read_vec_file_as_dict at h
    cases hc : dict_get (build_vec_dict file.body) "coffee" with
    | none => rw [hc] at h; cases h
    | some cv =>
        rw [hc] at h
        cases h
        rfl
  rw [hd]
  exact dict_get_build_vec_dict file.body label

/-- Witness for C9: a file whose label `"a"` occurs twice (vectors `[1]`
then `[2]`) produces a mapping holding `[2]`, the last write. -/
theorem read_vec_file_as_dict_last_write_wins_witness :
    dict_get [("a", [(2 : ℝ)]), ("coffee", [(5 : ℝ)])] "a" = some [2] := by
  have h := read_vec_file_as_dict_last_write_wins
    ⟨(3, 1), [("a", [1]), ("coffee", [5]), ("a", [2])]⟩
    [("a", [(2 : ℝ)]), ("coffee", [(5 : ℝ)])] true rfl "a"
  simpa using h

/-- C10: `read_vec_file_as_dict` validates shape by indexing the mapping at
the hard-coded key `"coffee"`: a file whose vocabulary lacks the label
`"coffee"` makes the call raise an (unhandled) `KeyError` instead of
returning the mapping, and when `"coffee"` is present, the dimension checked
against the header is the length of the `"coffee"` vector alone. -/
theorem read_vec_file_as_dict_coffee_lookup :
    (∀ file : VecFile, "coffee" ∉ file.body.map Prod.fst →
      read_vec_file_as_dict file = .error (.keyError "coffee")) ∧
    (∀ (file : VecFile) (cv : List ℝ),
      dict_get (build_vec_dict file.body) "coffee" = some cv →
      read_vec_file_as_dict file =
        .ok (build_vec_dict file.body,
          validate_shape ((build_vec_dict file.body).length, cv.length)
            file.header.1 file.header.2)) := by
  constructor
  · intro file hno
    have hfind : file.body.reverse.find? (fun l => l.1 = "coffee") = none := by
      rw [List.find?_eq_none]
      intro x hx
      simp only [decide_eq_true_eq]
      intro hx1
      exact hno (List.mem_map.mpr ⟨x, List.mem_reverse.mp hx, hx1⟩)
    have hn : dict_get (build_vec_dict file.body) "coffee" = none := by
      rw [dict_get_build_vec_dict, hfind]
      rfl
    unfold read_vec_file_as_dict
    rw [hn]
  · intro file cv hc
    unfold read_vec_file_as_dict
    rw [hc]

lemma ok_bind {α β : Type} (x : α) (g : α → Except PyErr β) :
    (Except.ok x : Except PyErr α) >>= g = g x := rfl

lemma error_bind {α β : Type} (e : PyErr) (g : α → Except PyErr β) :
    (Except.error e : Except PyErr α) >>= g = Except.error e := rfl

lemma pure_eq_ok {α : Type} (x : α) :
    (pure x : Except PyErr α) = Except.ok x := rfl

lemma FVal.add_nan (a : FVal) : a.add .nan = .nan := by
  cases a <;> rfl

lemma FVal.nan_add (a : FVal) : FVal.nan.add a = .nan := by
  cases a <;> rfl

lemma mean_singleton (a : ℝ) : mean [a] = a := by
  simp [mean]

lemma ss_singleton (a : ℝ) : ss [a] = 0 := by
  simp [ss, centered, mean_singleton]

lemma pearson_den_singleton (a : ℝ) (ys : List ℝ) : pearson_den [a] ys = 0 := by
  simp [pearson_den, ss_singleton]

lemma pearson_val_singleton (a : ℝ) (ys : List ℝ) :
    pearson_val [a] ys = .nan := by
  simp [pearson_val, pearson_den_singleton]

lemma pearsonr_singleton (a b : ℝ) : pearsonr [a] [b] = .ok .nan := by
  simp [pearsonr, pearson_val_singleton]

lemma spearmanr_singleton (a b : ℝ) :
    spearmanr [a] [b] = .error .valueError := by
  simp [spearmanr]

lemma pearsonr_ok_of_len (xs ys : List ℝ) (h : xs.length = ys.length) :
    pearsonr xs ys = .ok (pearson_val xs ys) := by
  rw [pearsonr, if_pos h]

lemma spearmanr_ok_of_len (xs ys : List ℝ) (h : xs.length = ys.length)
    (h2 : 2 ≤ xs.length) :
    spearmanr xs ys = .ok (pearson_val (rankdata xs) (rankdata ys)) := by
  rw [spearmanr, if_neg (not_not_intro h), if_neg (Nat.not_lt.mpr h2)]

lemma pearsonr_error_of_len (xs ys : List ℝ) (h1 : xs.length ≠ ys.length)
    (h2 : xs.length ≠ 1) (h3 : ys.length ≠ 1) :
    pearsonr xs ys = .error .valueError := by
  rw [pearsonr, if_neg h1, if_neg]
  push_neg
  exact ⟨h2, h3⟩

lemma evaluate_ok_of_len (lines : List (String × List ℝ))
    (csv : List (String × Option ℝ))
    (h : (read_vec_file_with_axes lines).1.length =
      (read_dwnominate_csv csv).1.length)
    (h2 : 2 ≤ (read_vec_file_with_axes lines).1.length) :
    evaluate_ideology_projection lines csv =
      .ok (pearson_val
             (scalar_projection (read_vec_file_with_axes lines).1
               (read_vec_file_with_axes lines).2.1).1
             (read_dwnominate_csv csv).1,
           pearson_val
             (rankdata (scalar_projection (read_vec_file_with_axes lines).1
               (read_vec_file_with_axes lines).2.1).1)
             (rankdata (read_dwnominate_csv csv).1)) := by
  have hlen : (scalar_projection (read_vec_file_with_axes lines).1
      (read_vec_file_with_axes lines).2.1).1.length =
      (read_dwnominate_csv csv).1.length := by
    simpa [scalar_projection] using h
  have hlen2 : 2 ≤ (scalar_projection (read_vec_file_with_axes lines).1
      (read_vec_file_with_axes lines).2.1).1.length := by
    simpa [scalar_projection] using h2
  simp only [evaluate_ideology_projection]
  rw [pearsonr_ok_of_len _ _ hlen, ok_bind,
    spearmanr_ok_of_len _ _ hlen hlen2, ok_bind, pure_eq_ok]

lemma evaluate_singleton_error_demo :
    evaluate_ideology_projection demo_vec1 demo_csv1 = .error .valueError := by
  have hcsv : (read_dwnominate_csv demo_csv1).1 = [1] := rfl
  simp only [evaluate_ideology_projection, hcsv]
  have hvec : (read_vec_file_with_axes demo_vec1).1 = [[(1 : ℝ), 0]] := rfl
  rw [hvec]
  simp [scalar_projection, pearsonr_singleton, spearmanr_singleton,
    ok_bind, error_bind]

lemma evaluate_mismatch_error :
    evaluate_ideology_projection demo_vec2 demo_csv3 = .error .valueError := by
  have hcsv : (read_dwnominate_csv demo_csv3).1 = [1, 0, 1] := rfl
  have hvec : (read_vec_file_with_axes demo_vec2).1 = [[(1 : ℝ), 0], [0, 1]] :=
    rfl
  simp only [evaluate_ideology_projection, hcsv, hvec]
  rw [pearsonr_error_of_len, error_bind]
  · simp [scalar_projection]
  · simp [scalar_projection]
  · simp

/-- Witness for C10: a coffee-less file raises the `KeyError`, and for a
file containing `"coffee"` the checked dimension is that of the coffee
vector. -/
theorem read_vec_file_as_dict_coffee_lookup_witness :
    read_vec_file_as_dict ⟨(1, 2), [("tea", [(1 : ℝ), 0])]⟩ =
        .error (.keyError "coffee") ∧
    read_vec_file_as_dict ⟨(1, 2), [("coffee", [(1 : ℝ), 0])]⟩ =
        .ok ([("coffee", [(1 : ℝ), 0])], false) := by
  constructor
  · exact read_vec_file_as_dict_coffee_lookup.1
      ⟨(1, 2), [("tea", [(1 : ℝ), 0])]⟩ (by simp)
  · have h := read_vec_file_as_dict_coffee_lookup.2
      ⟨(1, 2), [("coffee", [(1 : ℝ), 0])]⟩ [(1 : ℝ), 0] rfl
    simpa [build_vec_dict, dict_insert, validate_shape] using h

lemma read_dwnominate_lengths_aux (rows : List (String × Option ℝ))
    (acc : List ℝ × List String × List String)
    (h : acc.1.length = acc.2.1.length) :
    (rows.foldl
        (fun (acc : List ℝ × List String × List String)
            (row : String × Option ℝ) =>
          match row.2 with
          | some score => (acc.1 ++ [score], acc.2.1 ++ [row.1], acc.2.2)
          | none => (acc.1 ++ [0], acc.2.1 ++ [row.1 ++ "(missing score)"],
                     acc.2.2 ++ [row.1])) acc).1.length =
      (rows.foldl
        (fun (acc : List ℝ × List String × List String)
            (row : String × Option ℝ) =>
          match row.2 with
          | some score => (acc.1 ++ [score], acc.2.1 ++ [row.1], acc.2.2)
          | none => (acc.1 ++ [0], acc.2.1 ++ [row.1 ++ "(missing score)"],
                     acc.2.2 ++ [row.1])) acc).2.1.length := by
  induction rows generalizing acc with
  | nil => exact h
  | cons r rest ih =>
    cases hr : r.2 with
    | some score =>
        simp only [List.foldl_cons, hr]
        exact ih _ (by simp [h])
    | none =>
        simp only [List.foldl_cons, hr]
        exact ih _ (by simp [h])

/-- The two positional output arrays of the reference loader always have the
same length, so the downstream zip-based join loses no row. -/
lemma read_dwnominate_csv_lengths (rows : List (String × Option ℝ)) :
    (read_dwnominate_csv rows).1.length =
      (read_dwnominate_csv rows).2.1.length := by
  simp only [read_dwnominate_csv, List.length_map]
  exact read_dwnominate_lengths_aux rows ([], [], []) rfl

lemma in_vocab_join_eq (vd : List (String × List ℝ))
    (pairs : List (String × ℝ)) :
    in_vocab_join vd pairs =
      ((pairs.filter (fun p => (dict_get vd p.1).isSome)).map Prod.fst,
       (pairs.filter (fun p => (dict_get vd p.1).isSome)).map
         (fun p => (dict_get vd p.1).getD []),
       (pairs.filter (fun p => (dict_get vd p.1).isSome)).map Prod.snd) := by
  induction pairs with
  | nil => rfl
  | cons p rest ih =>
    obtain ⟨s, sc⟩ := p
    cases hp : dict_get vd s with
    | none =>
        simp only [in_vocab_join, hp, List.filter_cons]
        simp [hp, ih]
    | some v =>
        simp only [in_vocab_join, hp, List.filter_cons]
        simp [hp, ih]

/-- C8: in shared-dictionary mode, every reference name absent from the
mapping is dropped from the cohort's retained sample and lands in the
cohort's missing list, and the retained triple of (labels, vectors, scores)
is exactly the positional filter of the (senator, score) pairs to the names
present in the mapping, each vector taken from the mapping — nothing
imputed, positional correspondence preserved, and the correlation inputs of
`dict_session_stats` are built from exactly these retained lists. -/
theorem dict_join_drops_missing_keeps_pairs
    (vec_dict : List (String × List ℝ)) (senators : List String)
    (ideology : List ℝ) (h : senators.length = ideology.length) :
    (∀ s ∈ senators, dict_get vec_dict s = none →
      s ∈ missing_senators vec_dict senators ideology ∧
      s ∉ (in_vocab_join vec_dict (senators.zip ideology)).1) ∧
    in_vocab_join vec_dict (senators.zip ideology) =
      (((senators.zip ideology).filter
          (fun p => (dict_get vec_dict p.1).isSome)).map Prod.fst,
       ((senators.zip ideology).filter
          (fun p => (dict_get vec_dict p.1).isSome)).map
            (fun p => (dict_get vec_dict p.1).getD []),
       ((senators.zip ideology).filter
          (fun p => (dict_get vec_dict p.1).isSome)).map Prod.snd) := by
  have hjoin := in_vocab_join_eq vec_dict (senators.zip ideology)
  refine ⟨?_, hjoin⟩
  intro s hs hnone
  have hnotlab : s ∉ (in_vocab_join vec_dict (senators.zip ideology)).1 := by
    rw [hjoin]
    intro hmem
    simp only [List.mem_map] at hmem
    obtain ⟨p, hp, hps⟩ := hmem
    have := List.of_mem_filter hp
    rw [hps, hnone] at this
    simp at this
  refine ⟨?_, hnotlab⟩
  rw [missing_senators]
  apply List.mem_filter.mpr
  refine ⟨hs, ?_⟩
  simpa using hnotlab

/-- Witness for C8: names `["alice", "bob", "dave"]` joined against a
mapping containing only `alice` and `bob` retain exactly the 2 pairs for
alice and bob (in order, with their vectors and scores) and report `dave`
as missing. -/
theorem dict_join_drops_missing_keeps_pairs_witness :
    "dave" ∈ missing_senators [("alice", [(1 : ℝ), 0]), ("bob", [0, 1])]
        ["alice", "bob", "dave"] [1, 0, 1] ∧
    in_vocab_join [("alice", [(1 : ℝ), 0]), ("bob", [0, 1])]
        (["alice", "bob", "dave"].zip [1, 0, 1]) =
      (["alice", "bob"], [[1, 0], [0, 1]], [1, 0]) := by
  have h := dict_join_drops_missing_keeps_pairs
    [("alice", [(1 : ℝ), 0]), ("bob", [0, 1])]
    ["alice", "bob", "dave"] [1, 0, 1] rfl
  constructor
  · exact (h.1 "dave" (by simp) rfl).1
  · rw [h.2]
    rfl

/-- C6 (code behaviour at the failing input): with a single paired sample,
neither evaluation mode signals a distinct error/None result with the
cohort excluded: `stats.pearsonr` first produces the numeric NaN of
`0.0/0.0`, and `stats.mstats.spearmanr` then raises `ValueError` from its
`df = n - 2 < 0` check — an uncaught exception that propagates out of the
evaluator (and aborts any enclosing multi-cohort run). -/
theorem undefined_correlation_crashes_evaluator :
    evaluate_ideology_projection demo_vec1 demo_csv1 = .error .valueError ∧
    dict_session_stats [("alice", [(1 : ℝ), 0])]
        [[1, 0], [-1, 0], [0, 1], [0, -1]] demo_csv1 =
      .error .valueError := by
  constructor
  · exact evaluate_singleton_error_demo
  · have hcsv : read_dwnominate_csv demo_csv1 = ([1], ["alice"], []) := rfl
    have hjoin : in_vocab_join [("alice", [(1 : ℝ), 0])]
        [("alice", (1 : ℝ))] = (["alice"], [[1, 0]], [1]) := rfl
    simp only [dict_session_stats, hcsv]
    simp only [List.zip_cons_cons, List.zip_nil_right, hjoin]
    simp [scalar_projection, pearsonr_singleton, spearmanr_singleton,
      ok_bind, error_bind]

/-- C2 (code behaviour at the failing input): `compare_among_years` never
divides by the number of successfully processed cohorts. Over the 5-cohort
range `[0, 5)` where cohort 2 has a single paired sample, the ValueError of
the undefined cohort propagates and the run aborts with no average reported
at all (first conjunct); and when every cohort succeeds, each reported
average is the running sum divided by `end - start = 5`, the size of the
requested range (second conjunct). -/
theorem compare_among_years_requested_range_denominator :
    compare_among_years (fun s => if s = 2 then demo_vec1 else demo_vec2)
      (fun s => if s = 2 then demo_csv1 else demo_csv2) 0 5 =
      .error .valueError ∧
    compare_among_years (fun _ => demo_vec2) (fun _ => demo_csv2) 0 5 =
      .ok (((((((FVal.val 0).add
            (pearson_val
              (scalar_projection (read_vec_file_with_axes demo_vec2).1
                (read_vec_file_with_axes demo_vec2).2.1).1
              (read_dwnominate_csv demo_csv2).1)).add
            (pearson_val
              (scalar_projection (read_vec_file_with_axes demo_vec2).1
                (read_vec_file_with_axes demo_vec2).2.1).1
              (read_dwnominate_csv demo_csv2).1)).add
            (pearson_val
              (scalar_projection (read_vec_file_with_axes demo_vec2).1
                (read_vec_file_with_axes demo_vec2).2.1).1
              (read_dwnominate_csv demo_csv2).1)).add
            (pearson_val
              (scalar_projection (read_vec_file_with_axes demo_vec2).1
                (read_vec_file_with_axes demo_vec2).2.1).1
              (read_dwnominate_csv demo_csv2).1)).add
            (pearson_val
              (scalar_projection (read_vec_file_with_axes demo_vec2).1
                (read_vec_file_with_axes demo_vec2).2.1).1
              (read_dwnominate_csv demo_csv2).1)).div (FVal.val 5),
           ((((((FVal.val 0).add
            (pearson_val
              (rankdata (scalar_projection (read_vec_file_with_axes demo_vec2).1
                (read_vec_file_with_axes demo_vec2).2.1).1)
              (rankdata (read_dwnominate_csv demo_csv2).1))).add
            (pearson_val
              (rankdata (scalar_projection (read_vec_file_with_axes demo_vec2).1
                (read_vec_file_with_axes demo_vec2).2.1).1)
              (rankdata (read_dwnominate_csv demo_csv2).1))).add
            (pearson_val
              (rankdata (scalar_projection (read_vec_file_with_axes demo_vec2).1
                (read_vec_file_with_axes demo_vec2).2.1).1)
              (rankdata (read_dwnominate_csv demo_csv2).1))).add
            (pearson_val
              (rankdata (scalar_projection (read_vec_file_with_axes demo_vec2).1
                (read_vec_file_with_axes demo_vec2).2.1).1)
              (rankdata (read_dwnominate_csv demo_csv2).1))).add
            (pearson_val
              (rankdata (scalar_projection (read_vec_file_with_axes demo_vec2).1
                (read_vec_file_with_axes demo_vec2).2.1).1)
              (rankdata (read_dwnominate_csv demo_csv2).1))).div
          (FVal.val 5)) := by
  constructor
  · have hgood := evaluate_ok_of_len demo_vec2 demo_csv2 rfl (by decide)
    have hbad := evaluate_singleton_error_demo
    have hrange : List.range' 0 (5 - 0) = [0, 1, 2, 3, 4] := rfl
    simp only [compare_among_years, hrange, List.foldlM_cons, List.foldlM_nil]
    norm_num
    simp only [hgood, hbad, ok_bind, error_bind, pure_eq_ok]
  · have hgood := evaluate_ok_of_len demo_vec2 demo_csv2 rfl (by decide)
    have hrange : List.range' 0 (5 - 0) = [0, 1, 2, 3, 4] := rfl
    simp only [compare_among_years, hrange, List.foldlM_cons, List.foldlM_nil,
      hgood, ok_bind, pure_eq_ok]
    norm_num

/-- C3 (code behaviour at the failing input): in positional-join mode, a
cohort whose projected-vector and reference-score arrays differ in length
(2 vs 3) makes `stats.pearsonr` raise `ValueError` inside the correlation
routine; the exception propagates out of `evaluate_ideology_projection` and
aborts the entire multi-cohort aggregation, instead of being surfaced as a
per-cohort error condition with that cohort excluded. -/
theorem compare_among_years_mismatch_aborts_run :
    compare_among_years (fun _ => demo_vec2)
      (fun s => if s = 2 then demo_csv3 else demo_csv2) 0 5 =
      .error .valueError := by
  have hgood := evaluate_ok_of_len demo_vec2 demo_csv2 rfl (by decide)
  have hbad := evaluate_mismatch_error
  have hrange : List.range' 0 (5 - 0) = [0, 1, 2, 3, 4] := rfl
  simp only [compare_among_years, hrange, List.foldlM_cons, List.foldlM_nil]
  norm_num
  simp only [hgood, hbad, ok_bind, error_bind, pure_eq_ok]

end PoliVec
